import Mathlib

/-!
Shallow embedding of the honeybadger-rs error-reporting client
(src/errors.rs, src/notice.rs, src/honeybadger.rs) and proofs about it.

Machine integers (u64, u32, u16) are modelled as Nat; overflow is irrelevant
to the modelled code paths except in string parsing, where the u64 bound is
explicit.  Effectful inputs (environment variables, the system clock, the
network race between the request and the timeout timer) are passed as
explicit parameters.
-/

/-- `std::time::Duration`: seconds (u64) and a sub-second nanosecond part
(u32, `< 10^9` in Rust; the bound is not needed by the modelled code). -/
structure Duration where
  secs : Nat
  nanos : Nat
  deriving Repr, DecidableEq

/-- `Duration::new(secs, nanos)` for the `nanos < 10^9` cases the code uses
(it is only ever called with `nanos = 0`, so no carry occurs). -/
def Duration.new (secs nanos : Nat) : Duration := ⟨secs, nanos⟩

/-- `Duration::as_secs`: the whole-second part; sub-second nanos are
discarded. -/
def Duration.as_secs (d : Duration) : Nat := d.secs

/-- `Duration::from_secs`. -/
def Duration.from_secs (secs : Nat) : Duration := ⟨secs, 0⟩

/-- `errors.rs`: the `error_chain!`-generated `ErrorKind`.  The four
`foreign_links` variants carry opaque upstream errors, modelled as strings
(only the `Hyper` transport-failure variant matters to the claims; its
payload is the underlying cause). -/
inductive ErrorKind where
  | Hyper (err : String)
  | Http (err : String)
  | Io (err : String)
  | SerdeJson (err : String)
  | UnauthorizedError
  | RateExceededError
  | NotProcessedError
  | RedirectionError
  | ServerError
  | TimeoutError (timeout : Nat)
  | UnknownStatusCodeError (status_code : Nat)
  deriving Repr, DecidableEq

/-- `http::StatusCode::is_success`: 200 ≤ code < 300. -/
def StatusCode.is_success (c : Nat) : Bool := 200 ≤ c && c < 300

/-- `http::StatusCode::is_redirection`: 300 ≤ code < 400. -/
def StatusCode.is_redirection (c : Nat) : Bool := 300 ≤ c && c < 400

/-- The status-code match at the end of `Honeybadger::notify_with_client`
(honeybadger.rs lines 500-508), as a function of the received status code.
`.ok ()` is the `Ok(())` success arm. -/
def classifyStatus (c : Nat) : Except ErrorKind Unit :=
  if StatusCode.is_success c then .ok ()
  else if StatusCode.is_redirection c then .error .RedirectionError
  else if c = 401 then .error .UnauthorizedError
  else if c = 422 then .error .NotProcessedError
  else if c = 429 then .error .RateExceededError
  else if c = 500 then .error .ServerError
  else .error (.UnknownStatusCodeError c)

/-- Outcome of `tokio::time::timeout(deadline, req).await` in
`notify_with_client`: either the timer fired first (`elapsed`, tokio's
`Err(Elapsed)`), or the request finished first (`completed`), in which case
the transport either failed (`hyper::Error`, modelled as a string cause) or
produced a response with a status code. -/
inductive RaceResult where
  | elapsed
  | completed (response : Except String Nat)
  deriving Repr

namespace notice

/-- `notice.rs`: the serializable `Error` struct — `class: String`,
`message: Option<String>`, `causes: Option<Vec<Error>>`.  (The Rust field
`class` is a Lean keyword, hence the guillemets.) -/
inductive Error where
  | mk («class» : String) (message : Option String) (causes : Option (List Error))
  deriving Repr

def Error.«class» : Error → String
  | .mk c _ _ => c

def Error.message : Error → Option String
  | .mk _ m _ => m

def Error.causes : Error → Option (List Error)
  | .mk _ _ cs => cs

/-- Model of a `std::error::Error` trait object as consumed by
`Error::std_err`: a `description()` string and an optional `cause()`. -/
inductive StdError where
  | mk (description : String) (cause : Option StdError)
  deriving Repr

def StdError.description : StdError → String
  | .mk d _ => d

def StdError.cause : StdError → Option StdError
  | .mk _ c => c

/-- `error_chain`'s `Error::iter()` (`ErrorChainIter`): yields the error
itself first, then each successive `cause()` link. -/
def StdError.iter : StdError → List StdError
  | .mk d none => [.mk d none]
  | .mk d (some c) => .mk d (some c) :: StdError.iter c

/-- `Error::std_err` (notice.rs lines 90-96): class from `description()`,
no message, and `causes = error.cause().map(|cause| vec![std_err(cause)])`
— `None` when there is no cause, a one-element vector otherwise. -/
def Error.std_err : StdError → Error
  | .mk d none => .mk d none none
  | .mk d (some c) => .mk d none (some [Error.std_err c])

/-- Model of an `error_chain::ChainedError` as consumed by `Error::new`:
its view as a std error (`description()` and the `cause()` chain that
`iter()` walks starting at the error itself), plus the rendered
`display_chain()` string. -/
structure ChainedError where
  toStdError : StdError
  display_chain : String

/-- `Error::new` (notice.rs lines 79-88): class from `description()`,
message from `display_chain()`, and one `std_err` record per element of
`error.iter()`. -/
def Error.new (error : ChainedError) : Error :=
  .mk error.toStdError.description (some error.display_chain)
    (some (error.toStdError.iter.map Error.std_err))

/-- Model of one `failure::Fail` link of a cause chain: its `Display`
(`format!("{}", ..)`) and `Debug` (`format!("{:?}", ..)`) renderings. -/
structure FailLink where
  display : String
  debug : String
  deriving Repr, DecidableEq

/-- Model of a `failure::Error` as consumed by the `From` impl: its own
`Display`/`Debug` renderings plus the `iter_causes()` chain (the causes of
the top error, excluding the error itself; empty when the error has no
cause). -/
structure FailureError where
  display : String
  debug : String
  iter_causes : List FailLink
  deriving Repr, DecidableEq

/-- `impl From<failure::Error> for Error` (notice.rs lines 29-46): class
from Display, message from Debug, and `causes = Some(iter_causes().map(..))`
— one flat record per cause, each with `causes: None`. -/
def Error.fromFailure (error : FailureError) : Error :=
  .mk error.display (some error.debug)
    (some (error.iter_causes.map fun cause => .mk cause.display (some cause.debug) none))

/-- Model of a `Box<std::error::Error>` as consumed by its `From` impl:
only the `Display` and `Debug` renderings are used. -/
structure BoxedError where
  display : String
  debug : String
  deriving Repr, DecidableEq

/-- `impl From<Box<std::error::Error>> for Error` (notice.rs lines 67-75):
class from Display, message from Debug, no causes. -/
def Error.fromBoxed (error : BoxedError) : Error :=
  .mk error.display (some error.debug) none

/-- The spec §3 invariant, checked at every depth of the record tree: a
record with no causes has `causes = None`, never `Some []`. -/
def noEmptyCauses : Error → Bool
  | .mk _ _ none => true
  | .mk _ _ (some cs) => !cs.isEmpty && noEmptyCausesList cs
where noEmptyCausesList : List Error → Bool
  | [] => true
  | c :: cs => noEmptyCauses c && noEmptyCausesList cs

/-- Every `causes` field in this record tree is either absent or a
one-element list: the record is a linear chain, not a branching tree. -/
def linearCauses : Error → Bool
  | .mk _ _ none => true
  | .mk _ _ (some [c]) => linearCauses c
  | .mk _ _ (some _) => false

end notice

/-- Minimal JSON value model, used to state what the serde-derived
serialization of `notice::Error` emits. -/
inductive Json where
  | null
  | str (s : String)
  | arr (elems : List Json)
  | obj (fields : List (String × Json))

/-- The keys of a JSON object (empty for non-objects). -/
def Json.objKeys : Json → List String
  | .obj fields => fields.map Prod.fst
  | _ => []

namespace notice

/-- The `#[derive(Serialize)]` serialization of `notice::Error` (notice.rs
lines 19-24): an object with the struct's fields in declaration order;
`Option` serializes as `null` or the inner value, `Vec<Error>` as an
array. -/
def Error.toJson : Error → Json
  | .mk c m cs =>
    .obj [("class", .str c),
          ("message", match m with | none => .null | some s => .str s),
          ("causes", match cs with
            | none => .null
            | some l => .arr (l.attach.map fun x => Error.toJson x.1))]
decreasing_by
  have h := List.sizeOf_lt_of_mem x.2
  simp only [Error.mk.sizeOf_spec, Option.some.sizeOf_spec]
  omega

end notice

/-! honeybadger.rs: configuration and the notify pipeline. -/

def HONEYBADGER_ENDPOINT : String := "/v1/notices"
def HONEYBADGER_DEFAULT_TIMEOUT : Nat := 5
def HONEYBADGER_DEFAULT_THREADS : Nat := 4
def HONEYBADGER_SERVER_URL : String := "https://api.honeybadger.io"
def NOTIFIER_NAME : String := "honeybadger"
def NOTIFIER_URL : String := "https://github.com/fussybeaver/honeybader-rs"

/-- `Config` (honeybadger.rs lines 31-39). -/
structure Config where
  api_key : String
  root : String
  env : String
  hostname : String
  endpoint : String
  timeout : Duration
  threads : Nat
  deriving Repr, DecidableEq

/-- `ConfigBuilder` (honeybadger.rs lines 42-50). -/
structure ConfigBuilder where
  api_key : String
  root : Option String
  env : Option String
  hostname : Option String
  endpoint : Option String
  timeout : Option Duration
  threads : Option Nat
  deriving Repr, DecidableEq

/-- The numeric value of one ASCII digit character, if it is one. -/
def digitVal (c : Char) : Option Nat :=
  if 48 ≤ c.toNat ∧ c.toNat ≤ 57 then some (c.toNat - 48) else none

/-- The numeric value of a non-empty all-ASCII-digit character list. -/
def digitsVal : List Char → Option Nat
  | [] => none
  | cs => cs.foldl (fun acc c => acc.bind fun n => (digitVal c).map fun d => n * 10 + d)
      (some 0)

/-- Rust's `str::parse::<u64>()`: an optional leading `+`, then one or more
ASCII digits, and the value must fit in a u64; anything else fails. -/
def parseU64 (s : String) : Option Nat :=
  let digits := match s.data with
    | '+' :: rest => rest
    | l => l
  match digitsVal digits with
  | some n => if n < 2 ^ 64 then some n else none
  | none => none

/-- `ConfigBuilder::new` (honeybadger.rs lines 81-94).  `vars` models the
process environment read through `env::var(..).ok()`.  The timeout is
`env::var("HONEYBADGER_TIMEOUT").ok().and_then(|s| s.parse().ok()).map(|t| Duration::new(t, 0))`:
a present but non-parsing value is dropped. -/
def ConfigBuilder.new (vars : String → Option String) (api_token : String) : ConfigBuilder :=
  { api_key := api_token
    root := vars "HONEYBADGER_ROOT"
    env := vars "ENV"
    hostname := vars "HOSTNAME"
    endpoint := vars "HONEYBADGER_ENDPOINT"
    timeout := (vars "HONEYBADGER_TIMEOUT").bind fun s =>
      (parseU64 s).map fun t => Duration.new t 0
    threads := none }

/-- `ConfigBuilder::with_root`. -/
def ConfigBuilder.with_root (self : ConfigBuilder) (project_root : String) : ConfigBuilder :=
  { self with root := some project_root }

/-- `ConfigBuilder::with_env`. -/
def ConfigBuilder.with_env (self : ConfigBuilder) (environment : String) : ConfigBuilder :=
  { self with env := some environment }

/-- `ConfigBuilder::with_hostname`. -/
def ConfigBuilder.with_hostname (self : ConfigBuilder) (hostname : String) : ConfigBuilder :=
  { self with hostname := some hostname }

/-- `ConfigBuilder::with_endpoint`. -/
def ConfigBuilder.with_endpoint (self : ConfigBuilder) (endpoint : String) : ConfigBuilder :=
  { self with endpoint := some endpoint }

/-- `ConfigBuilder::with_timeout` (honeybadger.rs lines 188-191). -/
def ConfigBuilder.with_timeout (self : ConfigBuilder) (timeout : Duration) : ConfigBuilder :=
  { self with timeout := some timeout }

/-- `ConfigBuilder::with_threads`. -/
def ConfigBuilder.with_threads (self : ConfigBuilder) (threads : Nat) : ConfigBuilder :=
  { self with threads := some threads }

/-- `ConfigBuilder::build` (honeybadger.rs lines 229-251).  `current_dir`
models `env::current_dir().ok()` (converted to a string) and `os_hostname`
models `hostname::get().ok()`; the non-test endpoint default
`HONEYBADGER_SERVER_URL ++ HONEYBADGER_ENDPOINT` is used. -/
def ConfigBuilder.build (current_dir os_hostname : Option String) (self : ConfigBuilder) : Config :=
  { api_key := self.api_key
    root := (self.root.or current_dir).getD ""
    env := self.env.getD ""
    hostname := (self.hostname.or os_hostname).getD ""
    endpoint := self.endpoint.getD (HONEYBADGER_SERVER_URL ++ HONEYBADGER_ENDPOINT)
    timeout := self.timeout.getD (Duration.new HONEYBADGER_DEFAULT_TIMEOUT 0)
    threads := self.threads.getD HONEYBADGER_DEFAULT_THREADS }

/-- Opaque handle standing for the `Arc<Client<HttpsConnector<HttpConnector>>>`
transport handle; the modelled code only stores it and hands it to the
request call, never inspects or alters it. -/
structure ClientHandle where
  id : Nat
  deriving Repr, DecidableEq

/-- `Honeybadger` (honeybadger.rs lines 53-57). -/
structure Honeybadger where
  client : ClientHandle
  config : Config
  user_agent : String

/-- `Honeybadger::new` (honeybadger.rs lines 270-291): stores the config,
the freshly built client handle and the computed user agent
`"HB-rust {VERSION}; {os.os_type:?}/{os.version}"`.  `version` models the
compile-time `CARGO_PKG_VERSION` constant, `os_type`/`os_version` the
`os_type::current_platform()` probe. -/
def Honeybadger.new (version os_type os_version : String) (client : ClientHandle)
    (config : Config) : Honeybadger :=
  { client := client
    config := config
    user_agent := "HB-rust " ++ version ++ "; " ++ os_type ++ "/" ++ os_version }

/-- `notice::Notifier` (notice.rs lines 100-105). -/
structure Notifier where
  name : String
  url : String
  version : String
  deriving Repr, DecidableEq

/-- `notice::Request` (notice.rs lines 109-113); the `HashMap`s are
modelled as association lists. -/
structure Request where
  context : Option (List (String × String))
  cgi_data : List (String × String)
  deriving Repr, DecidableEq

/-- `notice::Server` (notice.rs lines 116-123). -/
structure Server where
  project_root : String
  environment_name : String
  hostname : String
  time : Nat
  pid : Nat
  deriving Repr, DecidableEq

/-- `notice::Notice` (notice.rs lines 9-16). -/
structure Notice where
  api_key : String
  notifier : Notifier
  error : notice.Error
  request : Request
  server : Server

/-- `Honeybadger::serialize` (honeybadger.rs lines 293-329) up to the final
`serde_json::to_vec`: assembles the `Notice` value.  `env_vars` models the
`env::vars()` snapshot, `pid` the `process::id()` value, and `clock` the
`SystemTime::now().duration_since(UNIX_EPOCH)` result (`Err` on a clock
read failure).  The server time is
`clock.map(|v| v.as_secs()).unwrap_or(0)`. -/
def Honeybadger.serialize (version : String) (config : Config) (error : notice.Error)
    (context : Option (List (String × String))) (env_vars : List (String × String))
    (clock : Except Unit Duration) (pid : Nat) : Notice :=
  { api_key := config.api_key
    notifier := { name := NOTIFIER_NAME, url := NOTIFIER_URL, version := version }
    error := error
    request := { context := context, cgi_data := env_vars }
    server :=
      { project_root := config.root
        environment_name := config.env
        hostname := config.hostname
        time := match clock.map Duration.as_secs with
          | .ok secs => secs
          | .error _ => 0
        pid := pid } }

/-- An outgoing HTTP request as assembled by
`Honeybadger::create_payload_with_config`; the body carries the notice
whose serialization it holds. -/
structure HttpRequest where
  uri : String
  method : String
  headers : List (String × String)
  body : Notice

/-- `Honeybadger::create_payload_with_config` (honeybadger.rs lines
331-350): POST to the configured endpoint with the `Accept`, `X-API-Key`
and `User-Agent` headers and the serialized notice as body. -/
def Honeybadger.create_payload_with_config (version : String) (config : Config)
    (user_agent : String) (error : notice.Error)
    (context : Option (List (String × String))) (env_vars : List (String × String))
    (clock : Except Unit Duration) (pid : Nat) : HttpRequest :=
  { uri := config.endpoint
    method := "POST"
    headers :=
      [("Accept", "application/json"), ("X-API-Key", config.api_key),
       ("User-Agent", user_agent)]
    body := Honeybadger.serialize version config error context env_vars clock pid }

/-- The deadline `notify_with_client` hands to `tokio::time::timeout`
(honeybadger.rs line 493): `Duration::from_secs(timeout)`. -/
def Honeybadger.notify_deadline (timeout : Nat) : Duration :=
  Duration.from_secs timeout

/-- `Honeybadger::notify_with_client` (honeybadger.rs lines 482-509): race
the request against the timeout timer; a fired timer yields
`Err(TimeoutError(timeout))`, a transport failure yields `Err(Hyper(err))`,
and a received response is classified by its status code. -/
def Honeybadger.notify_with_client (client : ClientHandle) (timeout : Nat)
    (request : HttpRequest) (race : RaceResult) : Except ErrorKind Unit :=
  match race with
  | .elapsed => .error (.TimeoutError timeout)
  | .completed (.error err) => .error (.Hyper err)
  | .completed (.ok status) => classifyStatus status

/-- `Honeybadger::notify` (honeybadger.rs lines 464-480): compute
`t = self.config.timeout.as_secs()`, build the payload, and run the
delivery.  The client record is not mutated anywhere on this path; it is
returned unchanged alongside the outcome to make that explicit. -/
def Honeybadger.notify (self : Honeybadger) (version : String) (error : notice.Error)
    (context : Option (List (String × String))) (env_vars : List (String × String))
    (clock : Except Unit Duration) (pid : Nat) (race : RaceResult) :
    Honeybadger × Except ErrorKind Unit :=
  let t := self.config.timeout.as_secs
  let request := Honeybadger.create_payload_with_config version self.config
    self.user_agent error context env_vars clock pid
  (self, Honeybadger.notify_with_client self.client t request race)

/-- The spec's status-code classification table (spec §4.3 and §8), written
from its words: any 2xx code → Success, any 3xx code → Redirected,
401 → Unauthorized, 422 → Unprocessable, 429 → RateLimited,
500 → ServerError, any other code c → UnknownStatus(c). -/
def classifyStatusSpec (c : Nat) : Except ErrorKind Unit :=
  if 200 ≤ c ∧ c ≤ 299 then .ok ()
  else if 300 ≤ c ∧ c ≤ 399 then .error .RedirectionError
  else if c = 401 then .error .UnauthorizedError
  else if c = 422 then .error .NotProcessedError
  else if c = 429 then .error .RateExceededError
  else if c = 500 then .error .ServerError
  else .error (.UnknownStatusCodeError c)

/-! Claim theorems. -/

/-- C1: status-code classification in delivery is a pure function of the
received status code with first-match-wins precedence: a 2xx code yields
Success (`Ok`), any 3xx code yields the Redirected outcome, 401
Unauthorized, 422 Unprocessable, 429 RateLimited, 500 ServerError, and any
other code `c` yields UnknownStatus(`c`); in particular 201 yields Success
and 418 yields UnknownStatus(418). -/
theorem classifyStatus_matches_spec :
    (∀ c : Nat, classifyStatus c = classifyStatusSpec c) ∧
    classifyStatus 201 = .ok () ∧
    classifyStatus 418 = .error (.UnknownStatusCodeError 418) := by
  refine ⟨fun c => ?_, rfl, rfl⟩
  simp only [classifyStatus, classifyStatusSpec, StatusCode.is_success,
    StatusCode.is_redirection, Bool.and_eq_true, decide_eq_true_eq]
  split_ifs <;> first | rfl | omega

/-- C2: if the timeout timer fires before the request completes, delivery
returns the timed-out outcome carrying the timeout in whole seconds (at the
`notify` level, `config.timeout.as_secs()`); if the transport reports a
failure before the timeout elapses, delivery returns the transport-failure
outcome carrying the underlying cause; and a fully received response is
always classified by status code, never discarded. -/
theorem notify_with_client_outcome_cases :
    (∀ (client : ClientHandle) (timeout : Nat) (request : HttpRequest),
      Honeybadger.notify_with_client client timeout request .elapsed
          = .error (.TimeoutError timeout) ∧
      (∀ cause : String,
        Honeybadger.notify_with_client client timeout request (.completed (.error cause))
          = .error (.Hyper cause)) ∧
      (∀ status : Nat,
        Honeybadger.notify_with_client client timeout request (.completed (.ok status))
          = classifyStatus status)) ∧
    (∀ (hb : Honeybadger) (version : String) (error : notice.Error)
       (context : Option (List (String × String))) (env_vars : List (String × String))
       (clock : Except Unit Duration) (pid : Nat),
      (hb.notify version error context env_vars clock pid .elapsed).2
        = .error (.TimeoutError hb.config.timeout.as_secs)) :=
  ⟨fun _ _ _ => ⟨rfl, fun _ => rfl, fun _ => rfl⟩, fun _ _ _ _ _ _ _ => rfl⟩

/-- C5: for every opaque boxed error (only display and debug strings
available), normalization produces a record with class equal to the display
string, message equal to `Some` of the debug string (always populated,
never null), and `causes = None`. -/
theorem fromBoxed_fields :
    ∀ b : notice.BoxedError,
      (notice.Error.fromBoxed b).«class» = b.display ∧
      (notice.Error.fromBoxed b).message = some b.debug ∧
      (notice.Error.fromBoxed b).causes = none :=
  fun _ => ⟨rfl, rfl, rfl⟩

/-- C7: a constructed client is reusable for arbitrarily many notify calls:
notify causes no state transition and leaves the configuration, transport
handle and user agent unchanged, and the outcome of a second call is the
same function of that call's own inputs whether or not a first call
happened before it. -/
theorem notify_leaves_client_unchanged :
    ∀ (hb : Honeybadger) (version : String) (error : notice.Error)
      (context : Option (List (String × String))) (env_vars : List (String × String))
      (clock : Except Unit Duration) (pid : Nat) (race : RaceResult)
      (version' : String) (error' : notice.Error)
      (context' : Option (List (String × String))) (env_vars' : List (String × String))
      (clock' : Except Unit Duration) (pid' : Nat) (race' : RaceResult),
      (hb.notify version error context env_vars clock pid race).1 = hb ∧
      (hb.notify version error context env_vars clock pid race).1.config = hb.config ∧
      (hb.notify version error context env_vars clock pid race).1.client = hb.client ∧
      (hb.notify version error context env_vars clock pid race).1.user_agent = hb.user_agent ∧
      ((hb.notify version error context env_vars clock pid race).1.notify
          version' error' context' env_vars' clock' pid' race').2
        = (hb.notify version' error' context' env_vars' clock' pid' race').2 :=
  fun _ _ _ _ _ _ _ _ _ _ _ _ _ _ _ => ⟨rfl, rfl, rfl, rfl, rfl⟩

/-- C8: the server time stamped into a notice is the wall-clock reading in
seconds since the Unix epoch, and on any clock-read failure it is clamped
to 0: the clock error is recovered locally (`serialize` still yields a
notice) and never surfaces as a failure of build or notify. -/
theorem serialize_time_clamped_to_zero :
    ∀ (version : String) (config : Config) (error : notice.Error)
      (context : Option (List (String × String))) (env_vars : List (String × String))
      (pid : Nat),
      (∀ d : Duration,
        (Honeybadger.serialize version config error context env_vars (.ok d) pid).server.time
          = d.as_secs) ∧
      (∀ e : Unit,
        (Honeybadger.serialize version config error context env_vars (.error e) pid).server.time
          = 0) :=
  fun _ _ _ _ _ _ => ⟨fun _ => rfl, fun _ => rfl⟩

/-- C10: the deadline raced against the request in notify is the configured
timeout truncated to whole seconds (the sub-second part is discarded), the
timed-out outcome reports that truncated integer, and a configured timeout
strictly below one second (0 whole seconds, any nanosecond part) yields an
effective timeout of 0 seconds. -/
theorem notify_timeout_truncates_to_whole_seconds :
    ∀ hb : Honeybadger,
      Honeybadger.notify_deadline hb.config.timeout.as_secs
          = Duration.mk hb.config.timeout.secs 0 ∧
      (∀ (version : String) (error : notice.Error)
         (context : Option (List (String × String)))
         (env_vars : List (String × String)) (clock : Except Unit Duration) (pid : Nat),
        (hb.notify version error context env_vars clock pid .elapsed).2
          = .error (.TimeoutError hb.config.timeout.secs)) ∧
      (∀ nanos : Nat, (Duration.mk 0 nanos).as_secs = 0) :=
  fun _ => ⟨rfl, fun _ _ _ _ _ _ => rfl, fun _ => rfl⟩

/-- `std_err` always satisfies the no-empty-causes invariant: its `causes`
field is `None` or a one-element list, recursively. -/
theorem std_err_noEmptyCauses : (s : notice.StdError) →
    notice.noEmptyCauses (notice.Error.std_err s) = true
  | .mk _ none => rfl
  | .mk d (some c) => by
      have ih := std_err_noEmptyCauses c
      simp [notice.Error.std_err, notice.noEmptyCauses,
        notice.noEmptyCauses.noEmptyCausesList, ih]

/-- A list of records that each satisfy the invariant satisfies the list
form of the invariant. -/
theorem noEmptyCausesList_of_forall (l : List notice.Error)
    (h : ∀ e ∈ l, notice.noEmptyCauses e = true) :
    notice.noEmptyCauses.noEmptyCausesList l = true := by
  induction l with
  | nil => rfl
  | cons hd tl ih =>
      simp only [notice.noEmptyCauses.noEmptyCausesList, Bool.and_eq_true]
      exact ⟨h hd (List.mem_cons_self hd tl), ih fun e he => h e (List.mem_cons_of_mem hd he)⟩

/-- The `error_chain` iterator is never empty: it starts with the error
itself. -/
theorem iter_ne_nil : (s : notice.StdError) → s.iter ≠ []
  | .mk _ none => by simp [notice.StdError.iter]
  | .mk _ (some _) => by simp [notice.StdError.iter]

/-- C3 counterexample: normalizing a `failure::Error` with no causes (empty
`iter_causes`) produces a top-level record whose `causes` is `Some []`,
not `None`, so the claimed invariant fails on the failure-error input
shape. -/
theorem fromFailure_empty_causes_counterexample :
    (notice.Error.fromFailure ⟨"oops", "oops-debug", []⟩).causes = some [] ∧
    notice.noEmptyCauses (notice.Error.fromFailure ⟨"oops", "oops-debug", []⟩) = false :=
  ⟨rfl, rfl⟩

/-- C3 (amended): the no-empty-causes invariant holds at every depth for
records produced by the chained-error path (`Error::new`) and by the boxed
path, and for the failure path whenever the source error has at least one
cause; the failure path's top-level record always carries `Some` causes,
which is the empty list exactly when the source has no causes. -/
theorem normalized_records_no_empty_causes :
    (∀ e : notice.ChainedError, notice.noEmptyCauses (notice.Error.new e) = true) ∧
    (∀ b : notice.BoxedError, notice.noEmptyCauses (notice.Error.fromBoxed b) = true) ∧
    (∀ f : notice.FailureError, f.iter_causes ≠ [] →
      notice.noEmptyCauses (notice.Error.fromFailure f) = true) := by
  refine ⟨fun e => ?_, fun b => rfl, fun f hf => ?_⟩
  · simp only [notice.Error.new, notice.noEmptyCauses, Bool.and_eq_true]
    refine ⟨?_, noEmptyCausesList_of_forall _ ?_⟩
    · simp [List.isEmpty_iff, iter_ne_nil e.toStdError]
    · intro x hx
      rcases List.mem_map.1 hx with ⟨s, _, rfl⟩
      exact std_err_noEmptyCauses s
  · simp only [notice.Error.fromFailure, notice.noEmptyCauses, Bool.and_eq_true]
    refine ⟨?_, noEmptyCausesList_of_forall _ ?_⟩
    · simp [List.isEmpty_iff, hf]
    · intro x hx
      rcases List.mem_map.1 hx with ⟨c, _, rfl⟩
      rfl

/-- C3 witness: the amended invariant applied to a concrete failure error
with one cause. -/
theorem normalized_records_no_empty_causes_witness :
    (notice.FailureError.mk "top" "top-debug" [⟨"cause", "cause-debug"⟩]).iter_causes ≠ [] ∧
    notice.noEmptyCauses
      (notice.Error.fromFailure ⟨"top", "top-debug", [⟨"cause", "cause-debug"⟩]⟩) = true :=
  ⟨by simp, normalized_records_no_empty_causes.2.2
    ⟨"top", "top-debug", [⟨"cause", "cause-debug"⟩]⟩ (by simp)⟩

/-- The records `std_err` builds are linear chains: every nested `causes`
is absent or a one-element list. -/
theorem std_err_linearCauses : (s : notice.StdError) →
    notice.linearCauses (notice.Error.std_err s) = true
  | .mk _ none => rfl
  | .mk d (some c) => by
      have ih := std_err_linearCauses c
      simp [notice.Error.std_err, notice.linearCauses, ih]

/-- C4: for every chained error, normalization produces a causes sequence
with exactly one flattened record per link of the cause iterator — its
length is exactly the iterator's length N — and each produced cause
record's own nested cause, if any, is a one-element causes list (a linear
walk, not a tree). -/
theorem error_new_preserves_chain_length :
    ∀ e : notice.ChainedError,
      (notice.Error.new e).causes = some (e.toStdError.iter.map notice.Error.std_err) ∧
      ((notice.Error.new e).causes.getD []).length = e.toStdError.iter.length ∧
      ((notice.Error.new e).causes.getD []).all notice.linearCauses = true := by
  intro e
  refine ⟨rfl, by simp [notice.Error.new, notice.Error.causes], ?_⟩
  rw [List.all_eq_true]
  intro x hx
  simp only [notice.Error.new, notice.Error.causes, Option.getD_some] at hx
  rcases List.mem_map.1 hx with ⟨s, _, rfl⟩
  exact std_err_linearCauses s

/-- C6: timeout resolution obeys explicit override > environment variable >
default: a well-formed HONEYBADGER_TIMEOUT value of n gives a timeout of n
seconds when no explicit override is set; an explicit `with_timeout` value
always wins; a malformed HONEYBADGER_TIMEOUT is silently ignored; and
absent both, the timeout defaults to 5 seconds. -/
theorem config_timeout_precedence
    (vars : String → Option String) (api_token s : String) (n : Nat) (d : Duration)
    (current_dir os_hostname : Option String) :
    (vars "HONEYBADGER_TIMEOUT" = some s → parseU64 s = some n →
      ((ConfigBuilder.new vars api_token).build current_dir os_hostname).timeout
        = Duration.new n 0) ∧
    ((((ConfigBuilder.new vars api_token).with_timeout d).build current_dir os_hostname).timeout
        = d) ∧
    (vars "HONEYBADGER_TIMEOUT" = some s → parseU64 s = none →
      ((ConfigBuilder.new vars api_token).build current_dir os_hostname).timeout
        = Duration.new HONEYBADGER_DEFAULT_TIMEOUT 0) ∧
    (vars "HONEYBADGER_TIMEOUT" = none →
      ((ConfigBuilder.new vars api_token).build current_dir os_hostname).timeout
        = Duration.new HONEYBADGER_DEFAULT_TIMEOUT 0) := by
  refine ⟨fun hv hp => ?_, rfl, fun hv hp => ?_, fun hv => ?_⟩ <;>
    simp [ConfigBuilder.new, ConfigBuilder.build, hv, *]

/-- C6 witness: the precedence theorem applied to a concrete environment
carrying HONEYBADGER_TIMEOUT=20 with no explicit override. -/
theorem config_timeout_precedence_witness :
    ((fun _ : String => some "20") "HONEYBADGER_TIMEOUT" = some "20") ∧
    parseU64 "20" = some 20 ∧
    ((ConfigBuilder.new (fun _ => some "20") "api-key").build none none).timeout
      = Duration.new 20 0 :=
  ⟨rfl, by decide,
    (config_timeout_precedence (fun _ => some "20") "api-key" "20" 20
      (Duration.new 7 0) none none).1 rfl (by decide)⟩

/-- C9 counterexample: the serialization of the record normalized from a
concrete chained error (the shape that can carry a backtrace) has no
"frames" key at all — only class, message and causes — so the claimed
frames sequence does not exist. -/
theorem normalized_record_has_no_frames :
    (notice.Error.toJson
        (notice.Error.new ⟨notice.StdError.mk "boom" none, "boom-chain"⟩)).objKeys
      = ["class", "message", "causes"] ∧
    "frames" ∉ (notice.Error.toJson
        (notice.Error.new ⟨notice.StdError.mk "boom" none, "boom-chain"⟩)).objKeys := by
  have hk : (notice.Error.toJson
      (notice.Error.new ⟨notice.StdError.mk "boom" none, "boom-chain"⟩)).objKeys
      = ["class", "message", "causes"] := by
    rw [notice.Error.toJson.eq_def]
    rfl
  exact ⟨hk, by rw [hk]; simp⟩

/-- C9 (amended): normalized error records carry no frames sequence: every
record — nested cause records included, since they are records of the same
type — serializes to exactly the keys class, message and causes, and in
particular never to a "frames" key. -/
theorem error_serialization_exact_keys :
    ∀ e : notice.Error,
      (notice.Error.toJson e).objKeys = ["class", "message", "causes"] ∧
      "frames" ∉ (notice.Error.toJson e).objKeys := by
  intro e
  have hk : (notice.Error.toJson e).objKeys = ["class", "message", "causes"] := by
    cases e
    rw [notice.Error.toJson.eq_def]
    rfl
  exact ⟨hk, by rw [hk]; simp⟩
